import Mathlib

/-!
Verification of the Sputnik IRC bouncer core (bouncer.py, connection.py,
handlers.py) against its natural-language specification.

The Python modules are shallowly embedded: the bouncer's side effects on the
persistence store and the event loop (store writes, store removals, outbound
dials) are recorded as an explicit event trace, the registry of network
sessions is an association list mirroring the Python dict, and byte strings
are lists of naturals below 256.
-/

set_option linter.unusedVariables false

namespace Sputnik

/-- A Python value as it appears in the credentials dictionary: a string,
an integer, or `None`. -/
inductive PyVal where
  | str : String → PyVal
  | int : Int → PyVal
  | none : PyVal
deriving DecidableEq

/-- An observable side effect of the bouncer: a datastore password write,
a datastore credentials upsert (`datastore.add_network(**credentials)`),
a datastore removal (`datastore.remove_network(network)`), or an outbound
dial (`loop.create_connection(lambda: Network(self, **credentials),
hostname, port)`). -/
inductive Event where
  | storeSetPassword : Event
  | storeAdd : List (String × PyVal) → Event
  | storeRemove : String → Event
  | dial : List (String × PyVal) → String → PyVal → Event
deriving DecidableEq

/-- The transport handle of a session; `close()` marks it closed. -/
structure Transport where
  closed : Bool
deriving DecidableEq

/-- A network session handle as the bouncer sees it (the session contract:
a `connected` flag and a `transport` offering `close()`). -/
structure Session where
  connected : Bool
  transport : Transport
deriving DecidableEq

/-- The bouncer's in-memory state: the set of client handles, the
`networks` dict (network name → session), and whether the datastore
connection succeeded (`self.datastore` truthiness). -/
structure BouncerState where
  clients : List String
  networks : List (String × Session)
  datastore : Bool
deriving DecidableEq

/-- First-match lookup in an association list, mirroring Python dict
access (keys are unique in a Python dict). -/
def lookupKey {α : Type} : List (String × α) → String → Option α
  | [], _ => Option.none
  | (k, v) :: rest, key => if k = key then some v else lookupKey rest key

/-- Python's `key in dict`. -/
def containsKey {α : Type} (m : List (String × α)) (key : String) : Bool :=
  (lookupKey m key).isSome

/-- Update the first entry with the given key, leaving the rest alone. -/
def updateFirst {α : Type} : List (String × α) → String → (α → α) → List (String × α)
  | [], _, _ => []
  | (k, v) :: rest, key, f =>
    if k = key then (k, f v) :: rest else (k, v) :: updateFirst rest key f

/-- The `credentials` dictionary literal built inside
`Bouncer.add_network` (bouncer.py lines 104-110): keys `network`,
`nickname`, `username`, `realname`, `hostname`, `port`, `password`,
in source order. Note the `usermode` parameter is not included. -/
def credentialsDict (network nickname username realname : String)
    (hostname : String) (port : PyVal) (password : PyVal) :
    List (String × PyVal) :=
  [("network", PyVal.str network),
   ("nickname", PyVal.str nickname),
   ("username", PyVal.str username),
   ("realname", PyVal.str realname),
   ("hostname", PyVal.str hostname),
   ("port", port),
   ("password", password)]

/-- `Bouncer.add_network(self, network, hostname, port, nickname, username,
realname, password=None, usermode=0)`: forms the credentials dict, writes
it to the datastore when one is connected, then schedules the outbound
dial. It does not touch `self.clients` or `self.networks`. -/
def add_network (st : BouncerState) (network hostname : String) (port : PyVal)
    (nickname username realname : String) (password : PyVal) (usermode : Int) :
    BouncerState × List Event :=
  let credentials := credentialsDict network nickname username realname hostname port password
  (st, (if st.datastore then [Event.storeAdd credentials] else []) ++
       [Event.dial credentials hostname port])

/-- `Bouncer.remove_network(self, network)`: when the name is a key of
`self.networks`, set that session's `connected` to `False` and close its
transport (the dict entry itself stays); independently, when a datastore
is connected, issue `datastore.remove_network(network)`. -/
def remove_network (st : BouncerState) (network : String) :
    BouncerState × List Event :=
  let st' :=
    if containsKey st.networks network then
      { st with
        networks :=
          updateFirst st.networks network (fun s =>
            { connected := false,
              transport := { s.transport with closed := true } }) }
    else st
  (st', if st.datastore then [Event.storeRemove network] else [])

/-- Consume one UTF-8 continuation byte constrained to `[lo, hi]`,
accumulating the code point (strict decoding, as CPython's
`bytes.decode()` does). -/
def utf8Cont (lo hi : Nat) (acc : Option (Nat × List Nat)) : Option (Nat × List Nat) :=
  match acc with
  | some (cp, b1 :: rest) =>
      if lo ≤ b1 ∧ b1 ≤ hi then some (cp * 64 + (b1 - 128), rest)
      else Option.none
  | _ => Option.none

/-- Decode one code point from the head of a byte list under strict
UTF-8 rules (overlong forms, surrogates and values above U+10FFFF are
rejected via the lead-byte-dependent bounds on the first continuation
byte), returning the code point and the remaining bytes. -/
def utf8Step : List Nat → Option (Nat × List Nat)
  | [] => Option.none
  | b :: rest =>
    if b < 128 then some (b, rest)
    else if 194 ≤ b ∧ b ≤ 223 then
      utf8Cont 128 191 (some (b - 192, rest))
    else if 224 ≤ b ∧ b ≤ 239 then
      utf8Cont 128 191
        (utf8Cont (if b = 224 then 160 else 128) (if b = 237 then 159 else 191)
          (some (b - 224, rest)))
    else if 240 ≤ b ∧ b ≤ 244 then
      utf8Cont 128 191
        (utf8Cont 128 191
          (utf8Cont (if b = 240 then 144 else 128) (if b = 244 then 143 else 191)
            (some (b - 240, rest))))
    else Option.none

/-- Strict UTF-8 decoding of a byte list into code points, with fuel for
structural recursion; each successful step consumes at least one byte,
so fuel equal to the list length is always enough. -/
def utf8DecodeFuel : Nat → List Nat → Option (List Nat)
  | _, [] => some []
  | 0, _ :: _ => Option.none
  | fuel + 1, b :: rest =>
    match utf8Step (b :: rest) with
    | some (cp, after) => (utf8DecodeFuel fuel after).map (fun t => cp :: t)
    | Option.none => Option.none

/-- `line.decode()`: strict UTF-8 decoding of the whole byte list;
`Option.none` models a raised `UnicodeDecodeError`. -/
def utf8Decode (l : List Nat) : Option (List Nat) :=
  utf8DecodeFuel l.length l

/-- `line.decode("latin1")` on one byte: every byte value below 256 maps
to the code point of the same number. -/
def latin1DecodeByte (b : Nat) : Option Nat :=
  if b < 256 then some b else Option.none

/-- `line.decode("latin1")` on a byte list: decode byte by byte. -/
def latin1Decode : List Nat → Option (List Nat)
  | [] => some []
  | b :: rest =>
    match latin1DecodeByte b, latin1Decode rest with
    | some c, some t => some (c :: t)
    | _, _ => Option.none

/-- `Connection.decode(self, line)` (connection.py lines 33-35): try
strict UTF-8 first; on `UnicodeDecodeError`, fall back to Latin-1. -/
def decode (l : List Nat) : Option (List Nat) :=
  match utf8Decode l with
  | some t => some t
  | Option.none => latin1Decode l

/-- Python's `line.endswith(ending)` on character lists. -/
def endswith (line ending : List Char) : Bool :=
  ending.isSuffixOf line

/-- `Connection.normalize(self, line, ending="\r\n")` (connection.py
lines 50-52): append the terminator only when the line does not already
end with it. -/
def normalize (line ending : List Char) : List Char :=
  if endswith line ending then line else line ++ ending

/-- The default terminator `"\r\n"`. -/
def crlf : List Char := ['\r', '\n']

/-- Python's `" ".join(args)`. -/
def joinSpace (args : List (List Char)) : List Char :=
  List.intercalate [' '] args

/-- UTF-8 encoding of one code point (the inverse direction used by
`str.encode()`). -/
def utf8EncodeNat (n : Nat) : List Nat :=
  if n < 128 then [n]
  else if n < 2048 then [192 + n / 64, 128 + n % 64]
  else if n < 65536 then [224 + n / 4096, 128 + (n / 64) % 64, 128 + n % 64]
  else [240 + n / 262144, 128 + (n / 4096) % 64, 128 + (n / 64) % 64, 128 + n % 64]

/-- `message.encode()`: UTF-8 encoding of a character list. -/
def utf8Encode (s : List Char) : List Nat :=
  (s.map (fun c => utf8EncodeNat c.toNat)).flatten

/-- The transport as `Connection.send` observes it: the ordered list of
byte payloads passed to `transport.write`. -/
structure ConnState where
  writes : List (List Nat)
deriving DecidableEq

/-- `Connection.send(self, *args)` (connection.py lines 66-67): join the
fragments with single spaces, normalize with the default terminator,
encode, and write once to the transport. -/
def send (st : ConnState) (args : List (List Char)) : ConnState :=
  let message := normalize (joinSpace args) crlf
  { writes := st.writes ++ [utf8Encode message] }

/-- Python's `s.split(":")` on the underlying character list: split on
every colon, keeping empty fragments (`"".split(":") == [""]`). -/
def splitColonChars : List Char → List (List Char)
  | [] => [[]]
  | c :: rest =>
    let r := splitColonChars rest
    if c = ':' then [] :: r
    else
      match r with
      | [] => [[c]]
      | x :: xs => (c :: x) :: xs

/-- Python's `s.split(":")` on strings. -/
def pySplitColon (s : String) : List String :=
  (splitColonChars s.data).map String.mk

/-- The outcome of a Tornado handler run: the bouncer state afterwards,
the events the bouncer emitted along the way, and the Python exception
if one was raised. -/
structure HandlerResult where
  state : BouncerState
  events : List Event
  err : Option String
deriving DecidableEq

/-- `AddHandler.post` (handlers.py lines 124-148): read the form fields,
split `networkaddress` on `":"` into hostname and port (a `ValueError`
when the split does not yield exactly two parts), then call
`add_network` only when `networkname` is not already a key of
`bouncer.networks`. -/
def addHandler_post (st : BouncerState)
    (networkname networkaddress nickname ident password : String) :
    HandlerResult :=
  match pySplitColon networkaddress with
  | [hostname, port] =>
    if containsKey st.networks networkname then
      { state := st, events := [], err := Option.none }
    else
      let r := add_network st networkname hostname (PyVal.str port)
                 nickname ident ident (PyVal.str password) 0
      { state := r.1, events := r.2, err := Option.none }
  | _ => { state := st, events := [], err := some "ValueError" }

/-- `EditHandler.post` (handlers.py lines 60-88): first
`remove_network(network_name)`, then read the form fields, split the
address, and call `add_network` unconditionally — no registry membership
check. -/
def editHandler_post (st : BouncerState) (network_name : String)
    (networkname networkaddress nickname ident password : String) :
    HandlerResult :=
  let r1 := remove_network st network_name
  match pySplitColon networkaddress with
  | [hostname, port] =>
    let r2 := add_network r1.1 networkname hostname (PyVal.str port)
                nickname ident ident (PyVal.str password) 0
    { state := r2.1, events := r1.2 ++ r2.2, err := Option.none }
  | _ => { state := r1.1, events := r1.2, err := some "ValueError" }

/-- One credentials record as `datastore.get_networks()` returns it: the
same seven fields `add_network` persists (the persistence adapter is an
upsert-by-name key-value mirror of these records). -/
structure StoredCred where
  network : String
  nickname : String
  username : String
  realname : String
  hostname : String
  port : PyVal
  password : PyVal
deriving DecidableEq

/-- The dictionary form of a stored record. -/
def storedDict (c : StoredCred) : List (String × PyVal) :=
  credentialsDict c.network c.nickname c.username c.realname c.hostname c.port c.password

/-- The reload loop of `Bouncer.__init__` (bouncer.py lines 54-56):
`for credentials in history.values(): self.add_network(**credentials)`,
with `usermode` taking its default 0. -/
def reloadNetworks : BouncerState → List StoredCred → BouncerState × List Event
  | st, [] => (st, [])
  | st, c :: rest =>
    let r1 := add_network st c.network c.hostname c.port
                c.nickname c.username c.realname c.password 0
    let r2 := reloadNetworks r1.1 rest
    (r2.1, r1.2 ++ r2.2)

/-- `Bouncer.__init__` (bouncer.py lines 28-56): start with an empty
client set and network dict; when the datastore connection succeeds,
generate and store a password if none is stored, then reload every
persisted record through `add_network`. `hasPassword` is whether
`datastore.get_password()` returned one; `history` is the snapshot
`datastore.get_networks().values()`. -/
def bouncerInit (datastoreAvail : Bool) (hasPassword : Bool)
    (history : List StoredCred) : BouncerState × List Event :=
  let st0 : BouncerState := { clients := [], networks := [], datastore := datastoreAvail }
  if datastoreAvail then
    let pwEvents := if hasPassword then [] else [Event.storeSetPassword]
    let r := reloadNetworks st0 history
    (r.1, pwEvents ++ r.2)
  else (st0, [])

/-- Recognizer for datastore credential upserts in an event trace. -/
def isStoreAdd : Event → Bool
  | Event.storeAdd _ => true
  | _ => false

/-- Recognizer for outbound dials in an event trace. -/
def isDial : Event → Bool
  | Event.dial _ _ _ => true
  | _ => false

/-! ### Helper lemmas -/

theorem lookupKey_updateFirst_self {α : Type} (m : List (String × α)) (k : String)
    (f : α → α) (v : α) (h : lookupKey m k = some v) :
    lookupKey (updateFirst m k f) k = some (f v) := by
  induction m with
  | nil => simp [lookupKey] at h
  | cons p rest ih =>
    by_cases hk : p.1 = k
    · simp [lookupKey, hk] at h
      simp [updateFirst, lookupKey, hk, h]
    · simp [lookupKey, hk] at h
      simp [updateFirst, lookupKey, hk, ih h]

theorem lookupKey_updateFirst_ne {α : Type} (m : List (String × α)) (k k' : String)
    (f : α → α) (h : k' ≠ k) :
    lookupKey (updateFirst m k f) k' = lookupKey m k' := by
  induction m with
  | nil => simp [updateFirst]
  | cons p rest ih =>
    by_cases hk : p.1 = k
    · have hk' : ¬ p.1 = k' := by
        rw [hk]
        exact fun hh => h hh.symm
      simp [updateFirst, lookupKey, hk, hk', Ne.symm h]
    · simp [updateFirst, lookupKey, hk, ih]

theorem updateFirst_keys {α : Type} (m : List (String × α)) (k : String) (f : α → α) :
    (updateFirst m k f).map Prod.fst = m.map Prod.fst := by
  induction m with
  | nil => rfl
  | cons p rest ih =>
    by_cases hk : p.1 = k
    · simp [updateFirst, hk]
    · simp [updateFirst, hk, ih]

theorem remove_network_frame (st : BouncerState) (name : String) :
    (remove_network st name).1.datastore = st.datastore ∧
    (remove_network st name).1.clients = st.clients ∧
    (remove_network st name).2 = (if st.datastore then [Event.storeRemove name] else []) := by
  unfold remove_network
  split <;> simp

theorem latin1Decode_total (l : List Nat) (h : ∀ b ∈ l, b < 256) :
    latin1Decode l = some l := by
  induction l with
  | nil => rfl
  | cons b rest ih =>
    have hb : b < 256 := h b (by simp)
    have hr : latin1Decode rest = some rest := ih (fun x hx => h x (by simp [hx]))
    simp [latin1Decode, latin1DecodeByte, hb, hr]

theorem reloadNetworks_trace (st : BouncerState) (history : List StoredCred)
    (h : st.datastore = true) :
    (reloadNetworks st history).1 = st ∧
    (reloadNetworks st history).2 =
      (history.map (fun c =>
        [Event.storeAdd (storedDict c),
         Event.dial (storedDict c) c.hostname c.port])).flatten := by
  induction history with
  | nil => simp [reloadNetworks]
  | cons c rest ih =>
    simp only [reloadNetworks, add_network, h, if_pos]
    simp [ih.1, ih.2, storedDict]

/-! ### Claim theorems -/

/-- C3: for every name present in the registry, `remove_network` sets
that session's `connected` flag to false and closes its transport, but
does not remove the (name → session) entry: the name is still a key of
the registry, every other registry entry is unchanged, and the client
collection is unchanged. -/
theorem removeNetwork_present_disconnects_keeps_entry
    (st : BouncerState) (name : String) (s : Session)
    (h : lookupKey st.networks name = some s) :
    lookupKey (remove_network st name).1.networks name =
      some { connected := false, transport := { s.transport with closed := true } } ∧
    containsKey (remove_network st name).1.networks name = true ∧
    (∀ other, other ≠ name →
      lookupKey (remove_network st name).1.networks other = lookupKey st.networks other) ∧
    (remove_network st name).1.networks.map Prod.fst = st.networks.map Prod.fst ∧
    (remove_network st name).1.clients = st.clients := by
  have hc : containsKey st.networks name = true := by
    simp [containsKey, h]
  have hlook :
      lookupKey (remove_network st name).1.networks name =
        some { connected := false, transport := { s.transport with closed := true } } := by
    simp only [remove_network, hc, if_pos]
    exact lookupKey_updateFirst_self st.networks name _ s h
  refine ⟨hlook, by simp [containsKey, hlook], ?_, ?_, ?_⟩
  · intro other hne
    simp only [remove_network, hc, if_pos]
    exact lookupKey_updateFirst_ne st.networks name other _ hne
  · simp only [remove_network, hc, if_pos]
    exact updateFirst_keys st.networks name _
  · simp [remove_network, hc]

/-- Witness for C3: a concrete registry holding a connected session for
`"freenode"`; after `remove_network` the entry is still present,
disconnected, with the transport closed. -/
theorem removeNetwork_present_disconnects_keeps_entry_witness :
    lookupKey
      (remove_network
        { clients := [], networks := [("freenode", { connected := true, transport := { closed := false } })], datastore := true }
        "freenode").1.networks "freenode" =
      some { connected := false, transport := { closed := true } } :=
  (removeNetwork_present_disconnects_keeps_entry
    { clients := [], networks := [("freenode", { connected := true, transport := { closed := false } })], datastore := true }
    "freenode" { connected := true, transport := { closed := false } } (by rfl)).1

/-- C9: for every name absent from the registry, `remove_network` leaves
the bouncer state unchanged and does not raise, yet when the datastore
is available it still issues a removal request for that name. -/
theorem removeNetwork_absent_noop_still_persists
    (st : BouncerState) (name : String)
    (h : lookupKey st.networks name = Option.none) :
    (remove_network st name).1 = st ∧
    (remove_network st name).2 = (if st.datastore then [Event.storeRemove name] else []) ∧
    (st.datastore = true → Event.storeRemove name ∈ (remove_network st name).2) := by
  have hc : containsKey st.networks name = false := by
    simp [containsKey, h]
  refine ⟨by simp [remove_network, hc], by simp [remove_network], ?_⟩
  intro hd
  simp [remove_network, hd]

/-- Witness for C9: removing `"gone"` from a registry that only holds
`"freenode"` leaves the state intact and emits the store removal. -/
theorem removeNetwork_absent_noop_still_persists_witness :
    (remove_network
      { clients := [], networks := [("freenode", { connected := true, transport := { closed := false } })], datastore := true }
      "gone").1 =
      { clients := [], networks := [("freenode", { connected := true, transport := { closed := false } })], datastore := true } :=
  (removeNetwork_absent_noop_still_persists
    { clients := [], networks := [("freenode", { connected := true, transport := { closed := false } })], datastore := true }
    "gone" (by rfl)).1

/-- C4: when the datastore is available, `add_network` emits exactly the
store write followed by the dial, so every store write in the trace
strictly precedes every dial. -/
theorem addNetwork_store_write_before_dial
    (st : BouncerState) (network hostname : String) (port : PyVal)
    (nickname username realname : String) (password : PyVal) (usermode : Int)
    (h : st.datastore = true) :
    (add_network st network hostname port nickname username realname password usermode).2 =
      [Event.storeAdd (credentialsDict network nickname username realname hostname port password),
       Event.dial (credentialsDict network nickname username realname hostname port password) hostname port] ∧
    (∀ i j e₁ e₂,
      (add_network st network hostname port nickname username realname password usermode).2.get? i = some e₁ →
      (add_network st network hostname port nickname username realname password usermode).2.get? j = some e₂ →
      isStoreAdd e₁ = true → isDial e₂ = true → i < j) := by
  have htr :
      (add_network st network hostname port nickname username realname password usermode).2 =
        [Event.storeAdd (credentialsDict network nickname username realname hostname port password),
         Event.dial (credentialsDict network nickname username realname hostname port password) hostname port] := by
    simp [add_network, h]
  refine ⟨htr, ?_⟩
  intro i j e₁ e₂ h₁ h₂ hsa hd
  rw [htr] at h₁ h₂
  match i, h₁ with
  | 0, h₁ =>
    match j, h₂ with
    | 0, h₂ =>
      exfalso
      rw [show e₂ = Event.storeAdd (credentialsDict network nickname username realname hostname port password) by
            exact (Option.some_inj.mp h₂).symm] at hd
      simp [isDial] at hd
    | 1, h₂ => exact Nat.zero_lt_one
    | n + 2, h₂ => simp [List.get?] at h₂
  | 1, h₁ =>
    exfalso
    rw [show e₁ = Event.dial (credentialsDict network nickname username realname hostname port password) hostname port by
          exact (Option.some_inj.mp h₁).symm] at hsa
    simp [isStoreAdd] at hsa
  | n + 2, h₁ => simp [List.get?] at h₁

/-- Witness for C4: with the datastore available, a concrete call emits
the store write first, then the dial. -/
theorem addNetwork_store_write_before_dial_witness :
    (add_network { clients := [], networks := [], datastore := true }
      "freenode" "irc.example.org" (PyVal.int 6667) "alice" "alice" "Alice" PyVal.none 0).2 =
      [Event.storeAdd (credentialsDict "freenode" "alice" "alice" "Alice" "irc.example.org" (PyVal.int 6667) PyVal.none),
       Event.dial (credentialsDict "freenode" "alice" "alice" "Alice" "irc.example.org" (PyVal.int 6667) PyVal.none) "irc.example.org" (PyVal.int 6667)] :=
  (addNetwork_store_write_before_dial
    { clients := [], networks := [], datastore := true }
    "freenode" "irc.example.org" (PyVal.int 6667) "alice" "alice" "Alice" PyVal.none 0 (by rfl)).1

/-- C5: `add_network` never inspects the registry: even when the network
name is already a key of the registry, the call leaves the bouncer state
unchanged (nothing is rejected, nothing raised), still emits the store
write when the datastore is available, and always emits the dial. -/
theorem addNetwork_ignores_registry
    (st : BouncerState) (network hostname : String) (port : PyVal)
    (nickname username realname : String) (password : PyVal) (usermode : Int)
    (h : containsKey st.networks network = true) :
    (add_network st network hostname port nickname username realname password usermode).1 = st ∧
    (add_network st network hostname port nickname username realname password usermode).2 =
      (if st.datastore then
        [Event.storeAdd (credentialsDict network nickname username realname hostname port password)]
       else []) ++
      [Event.dial (credentialsDict network nickname username realname hostname port password) hostname port] ∧
    (st.datastore = true →
      Event.storeAdd (credentialsDict network nickname username realname hostname port password) ∈
        (add_network st network hostname port nickname username realname password usermode).2) ∧
    Event.dial (credentialsDict network nickname username realname hostname port password) hostname port ∈
      (add_network st network hostname port nickname username realname password usermode).2 := by
  refine ⟨rfl, rfl, ?_, ?_⟩
  · intro hd
    simp [add_network, hd]
  · simp [add_network]

/-- Witness for C5: a registry already holding `"freenode"`; the call
leaves the state unchanged and still dials. -/
theorem addNetwork_ignores_registry_witness :
    containsKey
      ({ clients := [], networks := [("freenode", { connected := true, transport := { closed := false } })], datastore := true } : BouncerState).networks
      "freenode" = true ∧
    (add_network
      { clients := [], networks := [("freenode", { connected := true, transport := { closed := false } })], datastore := true }
      "freenode" "irc.example.org" (PyVal.int 6667) "alice" "alice" "Alice" PyVal.none 0).1 =
      { clients := [], networks := [("freenode", { connected := true, transport := { closed := false } })], datastore := true } :=
  ⟨by decide,
   (addNetwork_ignores_registry
     { clients := [], networks := [("freenode", { connected := true, transport := { closed := false } })], datastore := true }
     "freenode" "irc.example.org" (PyVal.int 6667) "alice" "alice" "Alice" PyVal.none 0 (by decide)).1⟩

/-- C6: for every byte sequence, `decode` returns a text value and never
fails: when strict UTF-8 decoding succeeds its result is returned, and
when it fails the result is the Latin-1 decoding, which succeeds for
every byte value below 256 and maps each byte to the equal code point. -/
theorem decode_total_with_fallback (l : List Nat) (h : ∀ b ∈ l, b < 256) :
    (decode l).isSome = true ∧
    (∀ t, utf8Decode l = some t → decode l = some t) ∧
    (utf8Decode l = Option.none → decode l = latin1Decode l ∧ decode l = some l) := by
  cases hu : utf8Decode l with
  | some t => simp [decode, hu]
  | none =>
    have hl : latin1Decode l = some l := latin1Decode_total l h
    simp [decode, hu, hl]

/-- Witness for C6: the lone byte 255 is not valid UTF-8, so `decode`
falls back to Latin-1 and yields the code point 255. -/
theorem decode_total_with_fallback_witness :
    decode [255] = some [255] :=
  ((decode_total_with_fallback [255] (by decide)).2.2 (by decide)).2

/-- C7: for every text and terminator, `normalize` returns a line ending
with the terminator, and `normalize` is idempotent. -/
theorem normalize_endswith_idempotent (t e : List Char) :
    endswith (normalize t e) e = true ∧
    normalize (normalize t e) e = normalize t e := by
  have h1 : endswith (normalize t e) e = true := by
    unfold normalize
    split
    · assumption
    · rw [endswith, List.isSuffixOf_iff_suffix]
      exact List.suffix_append t e
  exact ⟨h1, by rw [normalize, if_pos h1]⟩

/-- C8: `send` with three fragments performs exactly one transport
write, and the payload is the UTF-8 encoding of
`normalize(a ++ " " ++ b ++ " " ++ c)`. -/
theorem send_single_write_payload (st : ConnState) (a b c : List Char) :
    (send st [a, b, c]).writes =
      st.writes ++ [utf8Encode (normalize (a ++ ' ' :: (b ++ ' ' :: c)) crlf)] ∧
    (send st [a, b, c]).writes.length = st.writes.length + 1 := by
  have hj : joinSpace [a, b, c] = a ++ ' ' :: (b ++ ' ' :: c) := by
    simp [joinSpace, List.intercalate, List.intersperse]
  refine ⟨?_, ?_⟩ <;> simp [send, hj]

/-- C10: with the datastore available, startup replays each stored
record through `add_network`, so each record is written back to the
store immediately before its dial; N records yield exactly N store
writes and N dials (plus the password write when none is stored). -/
theorem bouncerInit_writes_back_each_record (hasPw : Bool) (history : List StoredCred) :
    (bouncerInit true hasPw history).2 =
      (if hasPw then [] else [Event.storeSetPassword]) ++
      (history.map (fun c =>
        [Event.storeAdd (storedDict c),
         Event.dial (storedDict c) c.hostname c.port])).flatten ∧
    (bouncerInit true hasPw history).2.countP isStoreAdd = history.length ∧
    (bouncerInit true hasPw history).2.countP isDial = history.length := by
  have hre := reloadNetworks_trace
    { clients := [], networks := [], datastore := true } history rfl
  have htr : (bouncerInit true hasPw history).2 =
      (if hasPw then [] else [Event.storeSetPassword]) ++
      (history.map (fun c =>
        [Event.storeAdd (storedDict c),
         Event.dial (storedDict c) c.hostname c.port])).flatten := by
    simp only [bouncerInit, if_pos]
    rw [hre.2]
  have hcount : ∀ p : Event → Bool, p Event.storeSetPassword = false →
      (∀ c : StoredCred,
        ([Event.storeAdd (storedDict c), Event.dial (storedDict c) c.hostname c.port].countP p) = 1) →
      (bouncerInit true hasPw history).2.countP p = history.length := by
    intro p hpw hone
    rw [htr, List.countP_append]
    have hflat : ∀ hist : List StoredCred,
        ((hist.map (fun c =>
          [Event.storeAdd (storedDict c),
           Event.dial (storedDict c) c.hostname c.port])).flatten.countP p) = hist.length := by
      intro hist
      induction hist with
      | nil => rfl
      | cons c rest ih =>
        simp only [List.map_cons, List.flatten_cons, List.countP_append, ih, hone c,
          List.length_cons]
        omega
    rw [hflat]
    cases hasPw <;> simp [List.countP, List.countP.go, hpw]
  refine ⟨htr, ?_, ?_⟩
  · exact hcount isStoreAdd rfl (fun c => by simp [List.countP_cons, isStoreAdd])
  · exact hcount isDial rfl (fun c => by simp [List.countP_cons, isDial])

/-- C1 counterexample: at a concrete call with the datastore available,
the record written to the store is the seven-key credentials dict, and
it has no `usermode` key — refuting the claim that the persisted record
carries the `usermode` field. -/
theorem addNetwork_record_lacks_usermode_cex :
    (add_network { clients := [], networks := [], datastore := true }
      "freenode" "irc.example.org" (PyVal.int 6667) "alice" "alice" "Alice" PyVal.none 0).2 =
      [Event.storeAdd (credentialsDict "freenode" "alice" "alice" "Alice" "irc.example.org" (PyVal.int 6667) PyVal.none),
       Event.dial (credentialsDict "freenode" "alice" "alice" "Alice" "irc.example.org" (PyVal.int 6667) PyVal.none) "irc.example.org" (PyVal.int 6667)] ∧
    containsKey (credentialsDict "freenode" "alice" "alice" "Alice" "irc.example.org" (PyVal.int 6667) PyVal.none) "usermode" = false := by
  exact ⟨rfl, rfl⟩

/-- C1 amended: when the datastore is available, the record written to
the store carries exactly the fields network name, nickname, username,
realname, hostname, port and password (the optional password included as
given), while the `usermode` parameter — though accepted with default
0 — is not part of the record. -/
theorem addNetwork_persisted_record_fields
    (st : BouncerState) (network hostname : String) (port : PyVal)
    (nickname username realname : String) (password : PyVal) (usermode : Int)
    (h : st.datastore = true) :
    (add_network st network hostname port nickname username realname password usermode).2.head? =
      some (Event.storeAdd (credentialsDict network nickname username realname hostname port password)) ∧
    (credentialsDict network nickname username realname hostname port password).map Prod.fst =
      ["network", "nickname", "username", "realname", "hostname", "port", "password"] ∧
    lookupKey (credentialsDict network nickname username realname hostname port password) "network" = some (PyVal.str network) ∧
    lookupKey (credentialsDict network nickname username realname hostname port password) "hostname" = some (PyVal.str hostname) ∧
    lookupKey (credentialsDict network nickname username realname hostname port password) "port" = some port ∧
    lookupKey (credentialsDict network nickname username realname hostname port password) "nickname" = some (PyVal.str nickname) ∧
    lookupKey (credentialsDict network nickname username realname hostname port password) "username" = some (PyVal.str username) ∧
    lookupKey (credentialsDict network nickname username realname hostname port password) "realname" = some (PyVal.str realname) ∧
    lookupKey (credentialsDict network nickname username realname hostname port password) "password" = some password ∧
    lookupKey (credentialsDict network nickname username realname hostname port password) "usermode" = Option.none := by
  refine ⟨?_, rfl, rfl, rfl, rfl, rfl, rfl, rfl, rfl, rfl⟩
  simp [add_network, h]

/-- Witness for C1 amended: a concrete call with the datastore
available. -/
theorem addNetwork_persisted_record_fields_witness :
    (add_network { clients := [], networks := [], datastore := true }
      "freenode" "irc.example.org" (PyVal.int 6667) "alice" "alice" "Alice" PyVal.none 0).2.head? =
      some (Event.storeAdd (credentialsDict "freenode" "alice" "alice" "Alice" "irc.example.org" (PyVal.int 6667) PyVal.none)) :=
  (addNetwork_persisted_record_fields
    { clients := [], networks := [], datastore := true }
    "freenode" "irc.example.org" (PyVal.int 6667) "alice" "alice" "Alice" PyVal.none 0 (by rfl)).1

/-- C2 counterexample: the edit-network page does call `add_network`
with a name already present in the registry. Starting from a registry
holding `"freenode"`, `EditHandler.post` first runs `remove_network`
(which does not evict the key), so at the moment `add_network` is
invoked the name `"freenode"` is still a key of the registry, and the
dial for `"freenode"` is emitted anyway. -/
theorem editHandler_calls_addNetwork_with_present_name_cex :
    containsKey
      ((remove_network
        { clients := [], networks := [("freenode", { connected := true, transport := { closed := false } })], datastore := false }
        "freenode").1).networks "freenode" = true ∧
    (editHandler_post
      { clients := [], networks := [("freenode", { connected := true, transport := { closed := false } })], datastore := false }
      "freenode" "freenode" "irc.example.org:6667" "alice" "alice" "pw").events =
      [Event.dial
        (credentialsDict "freenode" "alice" "alice" "alice" "irc.example.org" (PyVal.str "6667") (PyVal.str "pw"))
        "irc.example.org" (PyVal.str "6667")] ∧
    (editHandler_post
      { clients := [], networks := [("freenode", { connected := true, transport := { closed := false } })], datastore := false }
      "freenode" "freenode" "irc.example.org:6667" "alice" "alice" "pw").err = Option.none := by
  refine ⟨by decide, by decide, by decide⟩

/-- C2 amended: only the add-network page checks that the supplied name
is absent from the registry before calling `add_network` (when the name
is present it emits no events and leaves the state unchanged); the
edit-network page calls `add_network` unconditionally whenever the
address splits into hostname and port. -/
theorem configUI_uniqueness_add_page_only
    (st : BouncerState) (networkname networkaddress nickname ident password : String) :
    (containsKey st.networks networkname = true →
      (addHandler_post st networkname networkaddress nickname ident password).events = [] ∧
      (addHandler_post st networkname networkaddress nickname ident password).state = st) ∧
    (∀ old hostname port, pySplitColon networkaddress = [hostname, port] →
      (editHandler_post st old networkname networkaddress nickname ident password).events =
        (if st.datastore then [Event.storeRemove old] else []) ++
        ((if st.datastore then
            [Event.storeAdd (credentialsDict networkname nickname ident ident hostname (PyVal.str port) (PyVal.str password))]
          else []) ++
         [Event.dial (credentialsDict networkname nickname ident ident hostname (PyVal.str port) (PyVal.str password)) hostname (PyVal.str port)])) := by
  constructor
  · intro h
    unfold addHandler_post
    split
    · simp [h]
    · simp
  · intro old hostname port hsp
    have hfr := remove_network_frame st old
    unfold editHandler_post
    rw [hsp]
    simp [add_network, hfr.1, hfr.2.2]

/-- Witness for C2 amended: a registry holding `"x"`; the add page
refuses to add a duplicate, while the edit page dials unconditionally. -/
theorem configUI_uniqueness_add_page_only_witness :
    containsKey
      ({ clients := [], networks := [("x", { connected := true, transport := { closed := false } })], datastore := false } : BouncerState).networks
      "x" = true ∧
    (addHandler_post
      { clients := [], networks := [("x", { connected := true, transport := { closed := false } })], datastore := false }
      "x" "h:1" "n" "i" "p").events = [] ∧
    (editHandler_post
      { clients := [], networks := [("x", { connected := true, transport := { closed := false } })], datastore := false }
      "old" "x" "h:1" "n" "i" "p").events =
      [Event.dial (credentialsDict "x" "n" "i" "i" "h" (PyVal.str "1") (PyVal.str "p")) "h" (PyVal.str "1")] := by
  refine ⟨by decide, ?_, ?_⟩
  · exact ((configUI_uniqueness_add_page_only
      { clients := [], networks := [("x", { connected := true, transport := { closed := false } })], datastore := false }
      "x" "h:1" "n" "i" "p").1 (by decide)).1
  · have := (configUI_uniqueness_add_page_only
      { clients := [], networks := [("x", { connected := true, transport := { closed := false } })], datastore := false }
      "x" "h:1" "n" "i" "p").2 "old" "h" "1" (by decide)
    simpa using this

end Sputnik
